import Mathlib

/-!
Verification of the LiveSpeak backend (`src/backend`): a shallow embedding of
the audio chunker, router, noise and confidence estimators, caption merger and
the cloud-ASR recording path, with theorems settling the spec's claims.

Python floats are modelled as rationals (`Rat`); numpy arrays as `List Rat`.
The transcendental helpers `np.exp` and `np.sqrt` are taken as function
parameters (`rexp`, `rsqrt`) since they are irrational-valued; the theorems
only constrain them at the points where the real functions' values are known
exactly (for instance `rsqrt 0 = 0`).
-/

namespace LiveSpeak

/-- Clamp to the unit interval, as the sources' `min(1.0, max(0.0, x))`. -/
def clamp01 (x : Rat) : Rat := min 1 (max 0 x)

/-- Arithmetic mean, as `np.mean` (callers guard against empty input). -/
def mean (l : List Rat) : Rat := l.sum / l.length

/-- Python's `str.strip()`: drop leading and trailing whitespace. -/
def pyStrip (s : String) : String :=
  String.mk (((s.data.dropWhile Char.isWhitespace).reverse.dropWhile Char.isWhitespace).reverse)

/-! ## AudioChunker (`core/chunker.py`)

State of `AudioChunker`: the deque of pushed frames and the running sample
count.  `chunk_size` is fixed at construction. -/

structure ChunkerState where
  chunk_size : Nat
  buffer : List (List Rat)
  buffered_samples : Nat
deriving Repr, DecidableEq

/-- A fresh chunker (`AudioChunker.__init__`) with the given chunk size. -/
def chunkerInit (size : Nat) : ChunkerState :=
  { chunk_size := size, buffer := [], buffered_samples := 0 }

/-- The inner loop of `_extract_chunk`: `while len(chunk) < chunk_size and
self.buffer: chunk = concatenate([chunk, buffer.popleft()])`.  Structural on
the buffer, since each iteration pops one frame. -/
def extractLoop (size : Nat) : List Rat → List (List Rat) → List Rat × List (List Rat)
  | chunk, [] => (chunk, [])
  | chunk, a :: rest =>
    if chunk.length < size then extractLoop size (chunk ++ a) rest
    else (chunk, a :: rest)

/-- `AudioChunker._extract_chunk`: accumulate whole frames; return the chunk
only when its length is exactly `chunk_size`, otherwise put the (possibly
oversized) concatenation back at the front and return `None`. -/
def extractChunk (s : ChunkerState) : Option (List Rat) × ChunkerState :=
  let (chunk, buf) := extractLoop s.chunk_size [] s.buffer
  if chunk.length = s.chunk_size then
    (some chunk, { s with buffer := buf })
  else if chunk.length > 0 then
    (none, { s with buffer := chunk :: buf })
  else
    (none, { s with buffer := buf })

/-- The `while self.buffered_samples >= self.chunk_size` loop of `add_audio`.
The Python loop has no termination guarantee (nothing shrinks when
`_extract_chunk` returns `None`), so it is given fuel; `none` means the loop
was still running when the fuel ran out. -/
def addAudioLoop : Nat → ChunkerState → List (List Rat) → Option (List (List Rat) × ChunkerState)
  | 0, _, _ => none
  | Nat.succ fuel, s, acc =>
    if s.buffered_samples < s.chunk_size then some (acc, s)
    else
      match extractChunk s with
      | (some c, s') =>
        addAudioLoop fuel { s' with buffered_samples := s'.buffered_samples - s'.chunk_size } (acc ++ [c])
      | (none, s') => addAudioLoop fuel s' acc

/-- `AudioChunker.add_audio`: append the frame, bump the sample count, then
run the extraction loop. -/
def add_audio (fuel : Nat) (s : ChunkerState) (audio : List Rat) : Option (List (List Rat) × ChunkerState) :=
  addAudioLoop fuel
    { s with buffer := s.buffer ++ [audio], buffered_samples := s.buffered_samples + audio.length } []

/-- `AudioChunker.flush`: return all buffered samples (or `None` when empty)
and reset the state. -/
def flush (s : ChunkerState) : Option (List Rat) × ChunkerState :=
  if s.buffered_samples = 0 then (none, s)
  else
    let chunk := s.buffer.flatten
    (if chunk.length > 0 then some chunk else none,
     { s with buffer := [], buffered_samples := 0 })

/-! ## Router (`core/router.py`)

The router's mutable `self.stats` dictionary, one field per counter. -/

structure RouterStats where
  total_chunks : Nat
  edge_only : Nat
  routed_to_cloud : Nat
  cloud_succeeded : Nat
  cloud_failed : Nat
  cloud_timeout : Nat
  no_internet : Nat
deriving Repr, DecidableEq

/-- All-zero statistics, as set by `Router.__init__` and `reset_stats`. -/
def RouterStats.init : RouterStats :=
  { total_chunks := 0, edge_only := 0, routed_to_cloud := 0, cloud_succeeded := 0,
    cloud_failed := 0, cloud_timeout := 0, no_internet := 0 }

/-- The dictionary returned by `Router.decide_routing`. -/
structure Decision where
  use_cloud : Bool
  reason : String
  confidence : Rat
  noise_score : Rat
  internet_available : Bool
deriving Repr, DecidableEq

/-- `Router.decide_routing`, with `enable_cloud_asr` standing for
`self.config.routing.enable_cloud_asr` (the thresholds `0.75` and `0.6` are
literals in the source).  Returns the decision together with the updated
statistics. -/
def decide_routing (enable_cloud_asr : Bool) (s : RouterStats)
    (confidence noise_score : Rat) (internet_available : Bool) : Decision × RouterStats :=
  let s := { s with total_chunks := s.total_chunks + 1 }
  let low_confidence : Bool := decide (confidence < 0.75)
  let high_noise : Bool := decide (noise_score > 0.6)
  let (use_cloud, reason) :=
    if (low_confidence || high_noise) && internet_available then
      if !enable_cloud_asr then (false, "cloud_disabled")
      else if low_confidence && high_noise then (true, "low_confidence_and_high_noise")
      else if low_confidence then (true, "low_confidence")
      else (true, "high_noise")
    else
      if !internet_available then (false, "no_internet")
      else if !low_confidence && !high_noise then (false, "edge_sufficient")
      else (false, "edge_only")
  let s :=
    if use_cloud then { s with routed_to_cloud := s.routed_to_cloud + 1 }
    else
      let s := { s with edge_only := s.edge_only + 1 }
      if !internet_available then { s with no_internet := s.no_internet + 1 } else s
  ({ use_cloud := use_cloud, reason := reason, confidence := confidence,
     noise_score := noise_score, internet_available := internet_available }, s)

/-- `Router.record_cloud_result` (the Python `timeout` parameter defaults to
`False`). -/
def record_cloud_result (s : RouterStats) (success : Bool) (timeout : Bool) : RouterStats :=
  if timeout then
    { s with cloud_timeout := s.cloud_timeout + 1, cloud_failed := s.cloud_failed + 1 }
  else if success then
    { s with cloud_succeeded := s.cloud_succeeded + 1 }
  else
    { s with cloud_failed := s.cloud_failed + 1 }

/-- Round half-to-even to an integer, as Python's `round` on an exact value. -/
def roundHalfEven (y : Rat) : Int :=
  let f := ⌊y⌋
  let frac := y - f
  if frac < 1/2 then f
  else if frac > 1/2 then f + 1
  else if f % 2 = 0 then f else f + 1

/-- Python's `round(x, 2)` on an exact value. -/
def round2 (x : Rat) : Rat := (roundHalfEven (x * 100) : Rat) / 100

/-- The dictionary returned by `Router.get_stats`: the counters plus the three
derived fields. -/
structure StatsReport where
  total_chunks : Nat
  edge_only : Nat
  routed_to_cloud : Nat
  cloud_succeeded : Nat
  cloud_failed : Nat
  cloud_timeout : Nat
  no_internet : Nat
  edge_percentage : Rat
  cloud_percentage : Rat
  cloud_success_rate : Rat
deriving Repr, DecidableEq

/-- `Router.get_stats`. -/
def get_stats (s : RouterStats) : StatsReport :=
  if s.total_chunks = 0 then
    { total_chunks := s.total_chunks, edge_only := s.edge_only,
      routed_to_cloud := s.routed_to_cloud, cloud_succeeded := s.cloud_succeeded,
      cloud_failed := s.cloud_failed, cloud_timeout := s.cloud_timeout,
      no_internet := s.no_internet,
      edge_percentage := 0, cloud_percentage := 0, cloud_success_rate := 0 }
  else
    let total : Rat := s.total_chunks
    let routed := s.routed_to_cloud
    let edge_percentage := ((s.edge_only : Rat) / total) * 100
    let cloud_percentage := ((routed : Rat) / total) * 100
    let cloud_success_rate : Rat :=
      if routed > 0 then ((s.cloud_succeeded : Rat) / (routed : Rat)) * 100 else 0
    { total_chunks := s.total_chunks, edge_only := s.edge_only,
      routed_to_cloud := s.routed_to_cloud, cloud_succeeded := s.cloud_succeeded,
      cloud_failed := s.cloud_failed, cloud_timeout := s.cloud_timeout,
      no_internet := s.no_internet,
      edge_percentage := round2 edge_percentage,
      cloud_percentage := round2 cloud_percentage,
      cloud_success_rate := round2 cloud_success_rate }

/-! ## CaptionMerger (`core/caption_merger.py`) -/

/-- The `Caption` dataclass.  `timestamp` is an abstract tick (`datetime` in
the source); note there is no chunk sequence-number field. -/
structure Caption where
  text : String
  source : String
  confidence : Rat
  timestamp : Nat
  noise_score : Rat
deriving Repr, DecidableEq

/-- State of `CaptionMerger`: the current caption and the bounded history. -/
structure MergerState where
  current_caption : Option Caption
  history : List Caption
deriving Repr, DecidableEq

/-- `CaptionMerger.max_history`. -/
def max_history : Nat := 100

/-- Python string falsiness of `cloud_text` (`if not cloud_text` treats both
`None` and the empty string as "no cloud result"). -/
def strFalsy : Option String → Bool
  | none => true
  | some t => t = ""

/-- `CaptionMerger.merge_captions`.  When `cloud_text` is truthy the source
subtracts `cloud_confidence` unconditionally (it assumes the confidence is
present alongside the text); the model reads it with `getD 0`. -/
def merge_captions (s : MergerState) (edge_text : String) (edge_confidence : Rat)
    (cloud_text : Option String) (cloud_confidence : Option Rat)
    (noise_score : Rat) (timestamp : Nat) : Caption × MergerState :=
  let caption :=
    if strFalsy cloud_text then
      { text := edge_text, source := "edge", confidence := edge_confidence,
        timestamp := timestamp, noise_score := noise_score : Caption }
    else
      let ct := cloud_text.getD ""
      let cc := cloud_confidence.getD 0
      let confidence_delta := cc - edge_confidence
      if confidence_delta > 0.15 ∨ (edge_confidence < 0.6 ∧ cc > 0.7) then
        { text := ct, source := "cloud", confidence := cc,
          timestamp := timestamp, noise_score := noise_score : Caption }
      else
        { text := edge_text, source := "edge", confidence := edge_confidence,
          timestamp := timestamp, noise_score := noise_score : Caption }
  let hist := s.history ++ [caption]
  let hist := if hist.length > max_history then hist.drop 1 else hist
  (caption, { current_caption := some caption, history := hist })

/-- The orchestrator's gate before broadcasting (`server.py` step 7:
`if caption.text.strip(): await broadcast_caption(caption)`). -/
def shouldBroadcast (c : Caption) : Bool := pyStrip c.text ≠ ""

/-! ## CloudASR and the recording path (`core/cloud_asr.py`, `server.py`)

How the awaited remote call resolves: a transcript, a timeout, or another
exception. -/

inductive CloudOutcome where
  | success (text : String) (conf : Rat)
  | timeout
  | error
deriving Repr, DecidableEq

/-- `CloudASR.transcribe`: a successful call returns the (stripped) text with
its confidence; `asyncio.TimeoutError` and every other exception are caught
inside and turned into `("", 0.0)` — the caller cannot tell a timeout from any
other failure. -/
def cloudTranscribe : CloudOutcome → String × Rat
  | CloudOutcome.success t c => (pyStrip t, c)
  | CloudOutcome.timeout => ("", 0)
  | CloudOutcome.error => ("", 0)

/-- The cloud branch of `server.process_audio_chunk` (step 5): call the cloud,
then `record_cloud_result(True)` on truthy text and `record_cloud_result(False)`
otherwise — in both calls the `timeout` argument is left at its default
`False`.  Returns the `(cloud_text, cloud_confidence)` pair handed to the
merger and the updated statistics. -/
def cloudStep (s : RouterStats) (o : CloudOutcome) : (String × Rat) × RouterStats :=
  let (t, c) := cloudTranscribe o
  if t ≠ "" then ((t, c), record_cloud_result s true false)
  else ((t, c), record_cloud_result s false false)

/-! ## ConfidenceEstimator (`core/confidence.py`) -/

/-- State of `ConfidenceEstimator`: the bounded confidence history. -/
structure ConfState where
  confidence_history : List Rat
deriving Repr, DecidableEq

/-- `ConfidenceEstimator.window_size`. -/
def conf_window_size : Nat := 10

/-- The pre-history part of `estimate_confidence`: token confidence (with the
`np.exp` of the mean log-probability taken as the parameter `rexp`, falling
back to the raw edge confidence when there are no log-probabilities), the
0.7/0.3 combination, and the noise penalty. -/
def adjustedConfidence (rexp : Rat → Rat) (token_logprobs : List Rat)
    (edge_raw_confidence noise_score : Rat) : Rat :=
  let token_confidence :=
    if token_logprobs.isEmpty then edge_raw_confidence
    else min 1 (max 0 (rexp (mean token_logprobs)))
  let combined_confidence := 0.7 * token_confidence + 0.3 * edge_raw_confidence
  let noise_penalty := noise_score * 0.3
  combined_confidence * (1 - noise_penalty)

/-- Append to the confidence history and keep only the last
`conf_window_size` entries (`history.append(...)` followed by the
`pop(0)`-if-too-long step). -/
def pushHistory (hist : List Rat) (a : Rat) : List Rat :=
  let h0 := hist ++ [a]
  if h0.length > conf_window_size then h0.drop 1 else h0

/-- `ConfidenceEstimator.estimate_confidence`: empty or whitespace-only text
returns 0 untouched; otherwise the adjusted value is appended to the history
(bounded to the last 10), smoothed against the previous stored entry when at
least two entries exist, and clamped.  Returns the score and the new state. -/
def estimate_confidence (rexp : Rat → Rat) (s : ConfState) (text : String)
    (token_logprobs : List Rat) (edge_raw_confidence noise_score : Rat) : Rat × ConfState :=
  if pyStrip text = "" then (0, s)
  else
    let adjusted := adjustedConfidence rexp token_logprobs edge_raw_confidence noise_score
    let hist := pushHistory s.confidence_history adjusted
    let adjusted :=
      if hist.length > 1 then 0.3 * adjusted + 0.7 * hist.getD (hist.length - 2) 0
      else adjusted
    (clamp01 adjusted, { confidence_history := hist })

/-! ## NoiseEstimator (`core/noise.py`) -/

/-- State of `NoiseEstimator`: RMS/ZCR histories and the adaptive baselines
(`None` until established). -/
structure NoiseState where
  rms_history : List Rat
  zcr_history : List Rat
  baseline_rms : Option Rat
  baseline_zcr : Option Rat
deriving Repr, DecidableEq

/-- `NoiseEstimator.window_size`. -/
def noise_window_size : Nat := 10

/-- `NoiseConfig.rms_threshold`. -/
def rms_threshold : Rat := 0.02

/-- `NoiseConfig.zcr_threshold`. -/
def zcr_threshold : Rat := 0.1

/-- `np.sign`. -/
def sgn (x : Rat) : Rat := if x > 0 then 1 else if x < 0 then -1 else 0

/-- Insert into a sorted list of rationals (helper for the median). -/
def insertSorted (x : Rat) : List Rat → List Rat
  | [] => [x]
  | y :: ys => if x ≤ y then x :: y :: ys else y :: insertSorted x ys

/-- Insertion sort on rationals (helper for the median). -/
def sortRats : List Rat → List Rat
  | [] => []
  | x :: xs => insertSorted x (sortRats xs)

/-- `np.median`: middle element of the sorted list (mean of the two middle
elements for even length; the source only takes medians of 5-element
slices). -/
def median (l : List Rat) : Rat :=
  let sorted := sortRats l
  let n := l.length
  if n = 0 then 0
  else if n % 2 = 1 then sorted.getD (n / 2) 0
  else (sorted.getD (n / 2 - 1) 0 + sorted.getD (n / 2) 0) / 2

/-- `NoiseEstimator._compute_rms`, with `np.sqrt` as the parameter `rsqrt`. -/
def compute_rms (rsqrt : Rat → Rat) (audio : List Rat) : Rat :=
  if audio.length = 0 then 0
  else rsqrt (mean (audio.map (fun x => x ^ 2)))

/-- `NoiseEstimator._compute_zcr`: half the summed absolute sign differences,
normalised by length; 0 for fewer than two samples. -/
def compute_zcr (audio : List Rat) : Rat :=
  if audio.length < 2 then 0
  else
    let signs := audio.map sgn
    let sign_changes := (signs.zip signs.tail).map (fun p => p.2 - p.1)
    let zero_crossings := (sign_changes.map (fun d => |d|)).sum / 2
    zero_crossings / audio.length

/-- `NoiseEstimator.estimate_noise`: compute RMS and ZCR, push them into the
bounded histories, re-establish the baselines from the last five entries once
five exist, combine the threshold-normalised features 0.6/0.4, mix in the
baseline-deviation score 0.7/0.3 when baselines are established, and clamp.
Returns the score and the new state. -/
def estimate_noise (rsqrt : Rat → Rat) (s : NoiseState) (audio : List Rat) : Rat × NoiseState :=
  let rms := compute_rms rsqrt audio
  let zcr := compute_zcr audio
  let rh0 := s.rms_history ++ [rms]
  let zh0 := s.zcr_history ++ [zcr]
  let rh := if rh0.length > noise_window_size then rh0.drop 1 else rh0
  let zh := if rh0.length > noise_window_size then zh0.drop 1 else zh0
  let b_rms := if rh.length ≥ 5 then some (median (rh.drop (rh.length - 5))) else s.baseline_rms
  let b_zcr := if rh.length ≥ 5 then some (median (zh.drop (zh.length - 5))) else s.baseline_zcr
  let rms_normalized := min 1 (rms / rms_threshold)
  let zcr_normalized := min 1 (zcr / zcr_threshold)
  let noise_score := 0.6 * rms_normalized + 0.4 * zcr_normalized
  let noise_score :=
    match b_rms, b_zcr with
    | some br, some bz =>
      let rms_deviation := |rms - br| / max br 0.001
      let zcr_deviation := |zcr - bz| / max bz 0.001
      let deviation_score := min 1 ((rms_deviation + zcr_deviation) / 2)
      0.7 * noise_score + 0.3 * deviation_score
    | _, _ => noise_score
  (clamp01 noise_score,
   { rms_history := rh, zcr_history := zh, baseline_rms := b_rms, baseline_zcr := b_zcr })

/-! ## Delivery order (`server.py`)

`audio_callback` creates one asyncio task per chunk, in chunk order
(`main_event_loop.call_soon_threadsafe(asyncio.create_task, process_audio_chunk(c))`).
Each task broadcasts its caption when it completes (step 7), and nothing
re-sequences the broadcasts, so captions reach the clients in task-completion
order.  The model takes the completion time of each chunk's task as a schedule
parameter and returns the chunk indices in delivery order (stable for ties:
the event loop resumes equal-time tasks in creation order). -/

/-- Insert a (completion-time, chunk-index) pair into a delivery list sorted
by completion time, after any pair with the same time (stability). -/
def insertByTime (x : Nat × Nat) : List (Nat × Nat) → List (Nat × Nat)
  | [] => [x]
  | y :: ys => if x.1 < y.1 then x :: y :: ys else y :: insertByTime x ys

/-- Sort (completion-time, chunk-index) pairs by completion time. -/
def sortByTime : List (Nat × Nat) → List (Nat × Nat)
  | [] => []
  | x :: xs => insertByTime x (sortByTime xs)

/-- Chunk indices in the order their captions are broadcast, given each
chunk-task's completion time. -/
def deliveryOrder (completion_times : List Nat) : List Nat :=
  (sortByTime (completion_times.enum.map (fun p => (p.2, p.1)))).map (fun p => p.2)

/-! ## Helper lemmas -/

/-- Appending a single element makes it the last element. -/
theorem getLast?_concat_single {α : Type} (l : List α) (a : α) :
    (l ++ [a]).getLast? = some a := List.getLast?_concat l

/-- The last element survives dropping the head of a nonempty-prefixed
concatenation. -/
theorem getLast?_drop_one_concat {α : Type} (l : List α) (a : α) (h : l ≠ []) :
    ((l ++ [a]).drop 1).getLast? = some a := by
  cases l with
  | nil => exact absurd rfl h
  | cons x xs => simp

/-! ## C1 -/

/-- The absorbing state of the divergent `add_audio` run below: a single
8-sample frame in a chunker with `chunk_size = 4`. -/
def stuckState : ChunkerState :=
  { chunk_size := 4, buffer := [[0, 0, 0, 0, 0, 0, 0, 0]], buffered_samples := 8 }

/-- On `stuckState`, `_extract_chunk` builds the whole 8-sample frame, which
is not of length 4, puts it back unchanged and returns `None`, so the
`add_audio` while-loop makes no progress and exhausts any amount of fuel. -/
theorem addAudioLoop_stuck : ∀ (fuel : Nat) (acc : List (List Rat)),
    addAudioLoop fuel stuckState acc = none
  | 0, _ => rfl
  | Nat.succ f, acc => by
    have h : addAudioLoop (Nat.succ f) stuckState acc = addAudioLoop f stuckState acc := rfl
    rw [h]
    exact addAudioLoop_stuck f acc

/-- C1: the claim that `add_audio` always terminates and partitions the pushed
samples into `chunk_size`-sized chunks fails.  With `chunk_size = 4`, pushing a
3-sample frame (yielding no chunk) and then a 5-sample frame — 8 = 2·4 samples
in total — makes the second `add_audio` call loop forever: `_extract_chunk`
concatenates whole frames into an 8-sample chunk, which is not of length 4,
puts it back and returns `None` without decreasing `buffered_samples`, so the
`while buffered_samples >= chunk_size` loop never exits (the fuelled loop
reports `none` — still running — for every fuel). -/
theorem chunker_add_audio_diverges :
    add_audio 1 (chunkerInit 4) [0, 0, 0] =
      some ([], { chunk_size := 4, buffer := [[0, 0, 0]], buffered_samples := 3 }) ∧
    ∀ fuel : Nat,
      add_audio fuel { chunk_size := 4, buffer := [[0, 0, 0]], buffered_samples := 3 }
        [0, 0, 0, 0, 0] = none := by
  constructor
  · rfl
  · intro fuel
    cases fuel with
    | zero => rfl
    | succ f =>
      have h : add_audio (f + 1)
          { chunk_size := 4, buffer := [[0, 0, 0]], buffered_samples := 3 } [0, 0, 0, 0, 0]
          = addAudioLoop f stuckState [] := rfl
      rw [h]
      exact addAudioLoop_stuck f []

/-! ## C2 -/

/-- C2: the router's literal cases.  For any statistics state, with cloud
enabled: (0.8, 0.3, online) stays on edge with reason `edge_sufficient`;
(0.5, 0.3, online) goes to cloud with `low_confidence`; (0.8, 0.7, online)
with `high_noise`; (0.5, 0.7, online) with `low_confidence_and_high_noise`;
(0.5, 0.3, offline) stays on edge with `no_internet`; and for every qualifying
input (confidence < 0.75 or noise > 0.6, online) with cloud disabled the
router stays on edge with reason `cloud_disabled`. -/
theorem router_decide_cases (s : RouterStats) :
    ((decide_routing true s 0.8 0.3 true).1.use_cloud = false ∧
      (decide_routing true s 0.8 0.3 true).1.reason = "edge_sufficient") ∧
    ((decide_routing true s 0.5 0.3 true).1.use_cloud = true ∧
      (decide_routing true s 0.5 0.3 true).1.reason = "low_confidence") ∧
    ((decide_routing true s 0.8 0.7 true).1.use_cloud = true ∧
      (decide_routing true s 0.8 0.7 true).1.reason = "high_noise") ∧
    ((decide_routing true s 0.5 0.7 true).1.use_cloud = true ∧
      (decide_routing true s 0.5 0.7 true).1.reason = "low_confidence_and_high_noise") ∧
    ((decide_routing true s 0.5 0.3 false).1.use_cloud = false ∧
      (decide_routing true s 0.5 0.3 false).1.reason = "no_internet") ∧
    ∀ confidence noise_score : Rat, (confidence < 0.75 ∨ noise_score > 0.6) →
      (decide_routing false s confidence noise_score true).1.use_cloud = false ∧
      (decide_routing false s confidence noise_score true).1.reason = "cloud_disabled" := by
  refine ⟨⟨?_, ?_⟩, ⟨?_, ?_⟩, ⟨?_, ?_⟩, ⟨?_, ?_⟩, ⟨?_, ?_⟩, ?_⟩
  case _ => simp +decide [decide_routing]; norm_num
  case _ => simp +decide [decide_routing]; norm_num
  case _ => simp +decide [decide_routing]; norm_num
  case _ => simp +decide [decide_routing]; norm_num
  case _ => simp +decide [decide_routing]; norm_num
  case _ => simp +decide [decide_routing]; norm_num
  case _ => simp +decide [decide_routing]; norm_num
  case _ => simp +decide [decide_routing]; norm_num
  case _ => simp +decide [decide_routing]
  case _ => simp +decide [decide_routing]
  intro confidence noise_score h
  have hb : (decide (confidence < 0.75) || decide (noise_score > 0.6)) = true := by
    rcases h with h | h <;> simp [h]
  constructor <;> simp [decide_routing, hb]

/-- Witness for C2 at the concrete qualifying input (0.5, 0.3, online) with
cloud disabled. -/
theorem router_decide_cases_w :
    (decide_routing false RouterStats.init 0.5 0.3 true).1.use_cloud = false ∧
    (decide_routing false RouterStats.init 0.5 0.3 true).1.reason = "cloud_disabled" :=
  (router_decide_cases RouterStats.init).2.2.2.2.2 0.5 0.3 (Or.inl (by norm_num))

/-! ## C4 -/

/-- C4: `Router.record_cloud_result` itself does record timeouts distinctly
(first two conjuncts), but the pipeline cannot reach it: `CloudASR.transcribe`
catches `asyncio.TimeoutError` internally and returns `("", 0.0)`, and
`process_audio_chunk` then calls `record_cloud_result(False)` with the
`timeout` argument left at its default `False`.  So when a remote attempt
times out, `cloud_timeout` stays unchanged while only `cloud_failed` is
incremented — and the pipeline proceeds with the edge caption (the failure is
non-fatal). -/
theorem cloud_timeout_unrecorded (s : RouterStats) (m : MergerState)
    (edge_text : String) (edge_confidence noise_score : Rat) (ts : Nat) :
    (record_cloud_result s false true).cloud_timeout = s.cloud_timeout + 1 ∧
    (record_cloud_result s false true).cloud_failed = s.cloud_failed + 1 ∧
    (cloudStep s CloudOutcome.timeout).2.cloud_timeout = s.cloud_timeout ∧
    (cloudStep s CloudOutcome.timeout).2.cloud_failed = s.cloud_failed + 1 ∧
    (merge_captions m edge_text edge_confidence (some (cloudStep s CloudOutcome.timeout).1.1)
        (some (cloudStep s CloudOutcome.timeout).1.2) noise_score ts).1 =
      { text := edge_text, source := "edge", confidence := edge_confidence,
        timestamp := ts, noise_score := noise_score } :=
  ⟨rfl, rfl, rfl, rfl, rfl⟩

/-! ## C7 -/

/-- C7: with a non-empty cloud result the merger picks the cloud text exactly
when `cloud_confidence - edge_confidence > 0.15` or (`edge_confidence < 0.6`
and `cloud_confidence > 0.7`), keeping the edge caption otherwise; and with no
cloud result the edge caption is kept regardless of the confidences. -/
theorem merge_cloud_choice (s : MergerState) (edge_text : String) (edge_confidence : Rat)
    (ct : String) (cc noise_score : Rat) (ts : Nat) (hct : ct ≠ "") :
    ((merge_captions s edge_text edge_confidence (some ct) (some cc) noise_score ts).1.source
        = "cloud" ↔ (cc - edge_confidence > 0.15 ∨ (edge_confidence < 0.6 ∧ cc > 0.7))) ∧
    ((cc - edge_confidence > 0.15 ∨ (edge_confidence < 0.6 ∧ cc > 0.7)) →
      (merge_captions s edge_text edge_confidence (some ct) (some cc) noise_score ts).1.text = ct ∧
      (merge_captions s edge_text edge_confidence (some ct) (some cc) noise_score ts).1.confidence = cc) ∧
    (¬ (cc - edge_confidence > 0.15 ∨ (edge_confidence < 0.6 ∧ cc > 0.7)) →
      (merge_captions s edge_text edge_confidence (some ct) (some cc) noise_score ts).1.text = edge_text ∧
      (merge_captions s edge_text edge_confidence (some ct) (some cc) noise_score ts).1.source = "edge") ∧
    ((merge_captions s edge_text edge_confidence none none noise_score ts).1.source = "edge" ∧
      (merge_captions s edge_text edge_confidence none none noise_score ts).1.text = edge_text ∧
      (merge_captions s edge_text edge_confidence none none noise_score ts).1.confidence
        = edge_confidence) := by
  by_cases hc : cc - edge_confidence > 0.15 ∨ (edge_confidence < 0.6 ∧ cc > 0.7)
  · refine ⟨?_, fun _ => ⟨?_, ?_⟩, fun hn => absurd hc hn, ⟨rfl, rfl, rfl⟩⟩ <;>
      simp [merge_captions, strFalsy, hct, hc]
  · refine ⟨?_, fun hy => absurd hy hc, fun _ => ⟨?_, ?_⟩, ⟨rfl, rfl, rfl⟩⟩ <;>
      simp [merge_captions, strFalsy, hct, hc]

/-- Witness for C7 at the spec's example: local = ("hi", 0.5), remote =
("hi there", 0.70); delta = 0.2 > 0.15, so the cloud caption is chosen. -/
theorem merge_cloud_choice_w :
    (merge_captions { current_caption := none, history := [] } "hi" 0.5
        (some "hi there") (some 0.7) 0 0).1.source = "cloud" :=
  (merge_cloud_choice { current_caption := none, history := [] } "hi" 0.5
      "hi there" 0.7 0 0 (by decide)).1.mpr (Or.inl (by norm_num))

/-! ## C8 -/

/-- C8: on empty or whitespace-only text, `estimate_confidence` returns
exactly 0 and leaves the confidence history untouched, for every history
state, log-probability list and score input. -/
theorem confidence_empty_text (rexp : Rat → Rat) (s : ConfState) (text : String)
    (token_logprobs : List Rat) (edge_raw_confidence noise_score : Rat)
    (h : pyStrip text = "") :
    estimate_confidence rexp s text token_logprobs edge_raw_confidence noise_score = (0, s) := by
  simp [estimate_confidence, h]

/-- Witness for C8 at whitespace-only text. -/
theorem confidence_empty_text_w :
    estimate_confidence (fun x => x) { confidence_history := [0.5] } "  " [] 1 0
      = (0, { confidence_history := [0.5] }) :=
  confidence_empty_text (fun x => x) { confidence_history := [0.5] } "  " [] 1 0 (by decide)

/-! ## C10 -/

/-- C10: every `merge_captions` call stores the produced caption as the
current caption and as the last history entry — also when its text is empty —
while the orchestrator's broadcast gate (`if caption.text.strip():`) rejects
exactly the captions whose stripped text is empty, so such captions appear in
`current`/`history` without being delivered. -/
theorem merger_records_all_captions (s : MergerState) (edge_text : String)
    (edge_confidence : Rat) (cloud_text : Option String) (cloud_confidence : Option Rat)
    (noise_score : Rat) (ts : Nat) :
    (merge_captions s edge_text edge_confidence cloud_text cloud_confidence noise_score ts).2.current_caption
      = some (merge_captions s edge_text edge_confidence cloud_text cloud_confidence noise_score ts).1 ∧
    (merge_captions s edge_text edge_confidence cloud_text cloud_confidence noise_score ts).2.history.getLast?
      = some (merge_captions s edge_text edge_confidence cloud_text cloud_confidence noise_score ts).1 ∧
    (pyStrip (merge_captions s edge_text edge_confidence cloud_text cloud_confidence noise_score ts).1.text = "" →
      shouldBroadcast (merge_captions s edge_text edge_confidence cloud_text cloud_confidence noise_score ts).1
        = false) := by
  have hlast : ∀ c : Caption,
      (if (s.history ++ [c]).length > max_history then (s.history ++ [c]).drop 1
        else s.history ++ [c]).getLast? = some c := by
    intro c
    by_cases hlen : (s.history ++ [c]).length > max_history
    · rw [if_pos hlen]
      refine getLast?_drop_one_concat s.history c ?_
      intro hnil
      rw [hnil] at hlen
      simp [max_history] at hlen
    · rw [if_neg hlen]
      exact getLast?_concat_single s.history c
  refine ⟨rfl, ?_, ?_⟩
  · exact hlast _
  · intro h
    simp [shouldBroadcast, h]

/-- Witness for C10: merging an empty edge caption with no cloud result stores
it in current and history but the broadcast gate rejects it. -/
theorem merger_records_all_captions_w :
    (merge_captions { current_caption := none, history := [] } "" 0 none none 0 0).2.current_caption
      = some (merge_captions { current_caption := none, history := [] } "" 0 none none 0 0).1 ∧
    shouldBroadcast (merge_captions { current_caption := none, history := [] } "" 0 none none 0 0).1
      = false :=
  ⟨(merger_records_all_captions { current_caption := none, history := [] } "" 0 none none 0 0).1,
   (merger_records_all_captions { current_caption := none, history := [] } "" 0 none none 0 0).2.2
     (by decide)⟩

/-! ## C3 -/

/-- C3 counterexample: with two chunks whose processing tasks complete at
times 5 and 1 — the later chunk's remote call finishes before the earlier
chunk's — the captions are broadcast in chunk order [1, 0], which is not
non-decreasing.  Nothing in `server.py` re-sequences the per-chunk tasks
spawned by `audio_callback`, and the `Caption` record carries no sequence
number at all. -/
theorem delivery_order_counterexample :
    deliveryOrder [5, 1] = [1, 0] ∧ ¬ List.Sorted (· ≤ ·) (deliveryOrder [5, 1]) := by
  constructor
  · rfl
  · have e : deliveryOrder [5, 1] = [1, 0] := rfl
    rw [e]
    decide

/-- C3 amended: captions are delivered in task-completion order.  Whenever the
second of two chunks completes strictly earlier, its caption is broadcast
first, so the delivered chunk order is decreasing. -/
theorem delivery_follows_completion (d0 d1 : Nat) (h : d1 < d0) :
    deliveryOrder [d0, d1] = [1, 0] := by
  simp [deliveryOrder, sortByTime, insertByTime, Nat.not_lt.mpr (Nat.le_of_lt h)]

/-- Witness for the amended C3 at completion times (5, 1). -/
theorem delivery_follows_completion_w : deliveryOrder [5, 1] = [1, 0] :=
  delivery_follows_completion 5 1 (by norm_num)

/-! ## C5 -/

/-- The appended value is the last entry of the pushed history. -/
theorem pushHistory_getLast (L : List Rat) (a : Rat) :
    (pushHistory L a).getLast? = some a := by
  unfold pushHistory
  by_cases hlen : (L ++ [a]).length > conf_window_size
  · rw [if_pos hlen]
    refine getLast?_drop_one_concat L a ?_
    intro hnil
    rw [hnil] at hlen
    simp [conf_window_size] at hlen
  · rw [if_neg hlen]
    exact getLast?_concat_single L a

/-- Pushing onto a nonempty history leaves at least two entries. -/
theorem pushHistory_length_gt_one (L : List Rat) (a : Rat) (h : L ≠ []) :
    1 < (pushHistory L a).length := by
  have hL : 0 < L.length := List.length_pos.mpr h
  unfold pushHistory
  by_cases hlen : (L ++ [a]).length > conf_window_size
  · rw [if_pos hlen]
    simp only [List.length_drop, List.length_append, List.length_singleton]
    simp only [List.length_append, List.length_singleton, conf_window_size] at hlen
    omega
  · rw [if_neg hlen]
    simp only [List.length_append, List.length_singleton]
    omega

/-- The second-to-last entry of the pushed history is the last entry of the
previous history. -/
theorem pushHistory_prev (L : List Rat) (a d : Rat) (h : L ≠ []) :
    (pushHistory L a).getD ((pushHistory L a).length - 2) d = L.getLast?.getD d := by
  have hL : 1 ≤ L.length := List.length_pos.mpr h
  unfold pushHistory
  by_cases hlen : (L ++ [a]).length > conf_window_size
  · rw [if_pos hlen]
    simp only [List.length_append, List.length_singleton, conf_window_size] at hlen
    rw [List.drop_append_of_le_length hL]
    have hlen2 : (L.drop 1 ++ [a]).length = L.length := by
      simp only [List.length_append, List.length_singleton, List.length_drop]
      omega
    rw [hlen2, List.getD_eq_getElem?_getD,
      List.getElem?_append_left (by simp only [List.length_drop]; omega),
      List.getElem?_drop]
    have he : 1 + (L.length - 2) = L.length - 1 := by omega
    rw [he, List.getLast?_eq_getElem?]
  · rw [if_neg hlen]
    have he : (L ++ [a]).length - 2 = L.length - 1 := by
      simp only [List.length_append, List.length_singleton]
      omega
    rw [he, List.getD_eq_getElem?_getD,
      List.getElem?_append_left (by omega), List.getLast?_eq_getElem?]

/-- C5 counterexample: history `[0]`, then a call with empty log-probabilities,
raw edge confidence 1 and no noise.  The adjusted value is 1, the smoothed and
returned score is 0.3·1 + 0.7·0 = 0.3, but the history now reads `[0, 1]` —
it stores the pre-smoothing adjusted value 1, not the returned score 0.3, so
"history holds post-smoothing values" fails.  (`rexp` is irrelevant here: the
log-probability list is empty, so the edge fallback is used.) -/
theorem confidence_history_counterexample :
    (estimate_confidence (fun x => x) { confidence_history := [0] } "a" [] 1 0).1 = 3/10 ∧
    (estimate_confidence (fun x => x) { confidence_history := [0] } "a" [] 1 0).2
      = { confidence_history := [0, 1] } ∧
    ((1 : Rat) ≠ 3/10) := by
  have hne : ¬ pyStrip "a" = "" := by decide
  refine ⟨?_, ?_, by norm_num⟩ <;>
    norm_num [estimate_confidence, hne, pushHistory, adjustedConfidence, mean,
      clamp01, conf_window_size, min_def, max_def]

/-- C5 amended: for nonempty text and a nonempty prior history, the returned
score is `clamp01 (0.3·adjusted + 0.7·previous stored value)` — but what is
stored in the history for subsequent smoothing is the pre-smoothing adjusted
value, not the post-smoothing score. -/
theorem confidence_smoothing_amended (rexp : Rat → Rat) (s : ConfState) (text : String)
    (token_logprobs : List Rat) (edge_raw_confidence noise_score : Rat)
    (htext : ¬ pyStrip text = "") (hhist : s.confidence_history ≠ []) :
    (estimate_confidence rexp s text token_logprobs edge_raw_confidence noise_score).1
      = clamp01 (0.3 * adjustedConfidence rexp token_logprobs edge_raw_confidence noise_score
          + 0.7 * s.confidence_history.getLast?.getD 0) ∧
    (estimate_confidence rexp s text token_logprobs edge_raw_confidence
        noise_score).2.confidence_history.getLast?
      = some (adjustedConfidence rexp token_logprobs edge_raw_confidence noise_score) := by
  have h1 := pushHistory_length_gt_one s.confidence_history
    (adjustedConfidence rexp token_logprobs edge_raw_confidence noise_score) hhist
  constructor
  · show (if pyStrip text = "" then ((0 : Rat), s) else _).1 = _
    rw [if_neg htext]
    show clamp01 (if (pushHistory s.confidence_history _).length > 1 then _ else _) = _
    rw [if_pos h1, pushHistory_prev s.confidence_history _ 0 hhist]
  · show (if pyStrip text = "" then ((0 : Rat), s) else _).2.confidence_history.getLast? = _
    rw [if_neg htext]
    exact pushHistory_getLast s.confidence_history _

/-- Witness for the amended C5 with history `[0.5]` and adjusted value 1: the
returned score is 0.3·1 + 0.7·0.5 = 0.65 and the stored value is 1. -/
theorem confidence_smoothing_amended_w :
    (estimate_confidence (fun x => x) { confidence_history := [0.5] } "a" [] 1 0).1
      = clamp01 (0.3 * adjustedConfidence (fun x => x) [] 1 0
          + 0.7 * (([0.5] : List Rat).getLast?.getD 0)) ∧
    (estimate_confidence (fun x => x) { confidence_history := [0.5] } "a" [] 1
        0).2.confidence_history.getLast?
      = some (adjustedConfidence (fun x => x) [] 1 0) :=
  confidence_smoothing_amended (fun x => x) { confidence_history := [0.5] } "a" [] 1 0
    (by decide) (by decide)

/-! ## C6 -/

/-- C6 counterexample: after four chunks of RMS 1, the fifth call — on an
all-zero 2-sample chunk — establishes a baseline (median of the last five RMS
values = 1), and the deviation term makes the returned score
0.7·0 + 0.3·min(1, (1+0)/2) = 0.15 ≠ 0 even though RMS = ZCR = 0.  The square
root parameter is only applied at 0, where the identity function agrees with
the real square root. -/
theorem noise_zero_chunk_counterexample :
    (estimate_noise (fun x => x)
        { rms_history := [1, 1, 1, 1], zcr_history := [0, 0, 0, 0],
          baseline_rms := none, baseline_zcr := none } [0, 0]).1 = 3/20 ∧
    ((3 : Rat)/20 ≠ 0) := by
  refine ⟨?_, by norm_num⟩
  norm_num [estimate_noise, compute_rms, compute_zcr, mean, sgn, median, sortRats,
    insertSorted, clamp01, noise_window_size, rms_threshold, zcr_threshold,
    min_def, max_def, abs_eq_max_neg]

/-- C6 amended: for every history state, an empty or all-zero chunk has
RMS = 0 and ZCR = 0; and the returned noise score is exactly 0 provided no
baseline has been established (no prior baseline, and fewer than five history
entries counting the current chunk).  With an established nonzero baseline the
deviation term can make the score positive, as the counterexample shows.  The
hypothesis `rsqrt 0 = 0` pins the square-root parameter at the only point
where it is applied. -/
theorem noise_zero_chunk_amended (rsqrt : Rat → Rat) (s : NoiseState) (audio : List Rat)
    (hsqrt : rsqrt 0 = 0) (hz : ∀ x ∈ audio, x = 0)
    (hb1 : s.baseline_rms = none) (hb2 : s.baseline_zcr = none)
    (hlen : s.rms_history.length < 4) :
    compute_rms rsqrt audio = 0 ∧ compute_zcr audio = 0 ∧
    (estimate_noise rsqrt s audio).1 = 0 := by
  have hrms : compute_rms rsqrt audio = 0 := by
    unfold compute_rms
    by_cases h0 : audio.length = 0
    · rw [if_pos h0]
    · rw [if_neg h0]
      have hsq : (audio.map (fun x => x ^ 2)).sum = 0 := by
        apply List.sum_eq_zero
        intro y hy
        obtain ⟨x, hx, rfl⟩ := List.mem_map.mp hy
        rw [hz x hx]
        norm_num
      rw [mean, hsq, zero_div, hsqrt]
  have hzcr : compute_zcr audio = 0 := by
    unfold compute_zcr
    by_cases h2 : audio.length < 2
    · rw [if_pos h2]
    · rw [if_neg h2]
      have hsigns : ∀ y ∈ audio.map sgn, y = 0 := by
        intro y hy
        obtain ⟨x, hx, rfl⟩ := List.mem_map.mp hy
        rw [hz x hx]
        simp [sgn]
      have hd : ∀ y ∈ (((audio.map sgn).zip (audio.map sgn).tail).map
          (fun p => p.2 - p.1)).map (fun d => |d|), y = 0 := by
        intro y hy
        obtain ⟨d, hdm, rfl⟩ := List.mem_map.mp hy
        obtain ⟨p, hp, rfl⟩ := List.mem_map.mp hdm
        have e1 := hsigns p.1 (List.of_mem_zip hp).1
        have e2 := hsigns p.2 (List.mem_of_mem_tail (List.of_mem_zip hp).2)
        rw [e1, e2]
        norm_num
      show ((((audio.map sgn).zip (audio.map sgn).tail).map
          (fun p => p.2 - p.1)).map (fun d => |d|)).sum / 2 / (audio.length : Rat) = 0
      rw [List.sum_eq_zero hd]
      norm_num
  refine ⟨hrms, hzcr, ?_⟩
  have hA : ¬ (s.rms_history ++ [(0 : Rat)]).length > noise_window_size := by
    simp only [List.length_append, List.length_singleton, noise_window_size]
    omega
  have hB : ¬ (s.rms_history ++ [(0 : Rat)]).length ≥ 5 := by
    simp only [List.length_append, List.length_singleton]
    omega
  unfold estimate_noise
  simp only [hrms, hzcr, hA, hB, if_neg, if_false, hb1, hb2]
  norm_num [clamp01, rms_threshold, zcr_threshold, min_def, max_def]

/-- Witness for the amended C6: an all-zero 2-sample chunk on a fresh
estimator yields RMS = ZCR = 0 and score 0. -/
theorem noise_zero_chunk_amended_w :
    compute_rms (fun x => x) [0, 0] = 0 ∧ compute_zcr [0, 0] = 0 ∧
    (estimate_noise (fun x => x)
        { rms_history := [], zcr_history := [],
          baseline_rms := none, baseline_zcr := none } [0, 0]).1 = 0 :=
  noise_zero_chunk_amended (fun x => x)
    { rms_history := [], zcr_history := [], baseline_rms := none, baseline_zcr := none }
    [0, 0] rfl (by decide) rfl rfl (by decide)

/-! ## C9 -/

/-- A reachable statistics state: three routing decisions — two routed to
cloud at (0.5, 0.3, online), one kept on edge at (0.8, 0.3, online) — so
`total_chunks = 3`, `edge_only = 1`, `routed_to_cloud = 2`. -/
def statsAfterThree : RouterStats :=
  (decide_routing true
    ((decide_routing true
      ((decide_routing true RouterStats.init 0.5 0.3 true).2) 0.5 0.3 true).2) 0.8 0.3 true).2

/-- C9 counterexample: `get_stats` rounds the percentages to two decimal
places, so with `edge_only = 1` of `total_chunks = 3` the reported
`edge_percentage` is 33.33, not the exact `1/3 · 100` the claim asserts. -/
theorem stats_rounding_counterexample :
    statsAfterThree =
      { total_chunks := 3, edge_only := 1, routed_to_cloud := 2, cloud_succeeded := 0,
        cloud_failed := 0, cloud_timeout := 0, no_internet := 0 } ∧
    (get_stats statsAfterThree).edge_percentage = 3333/100 ∧
    ((3333 : Rat)/100 ≠ ((1 : Rat) / 3) * 100) := by
  have h : statsAfterThree =
      { total_chunks := 3, edge_only := 1, routed_to_cloud := 2, cloud_succeeded := 0,
        cloud_failed := 0, cloud_timeout := 0, no_internet := 0 } := by
    norm_num [statsAfterThree, decide_routing, RouterStats.init]
  refine ⟨h, ?_, by norm_num⟩
  rw [h]
  norm_num [get_stats, round2, roundHalfEven]

/-- C9 amended: on the initial (or freshly reset) state every counter and all
three derived fields are zero; and for any state with `total_chunks > 0` the
derived fields equal the claimed ratios rounded to two decimal places
(half-to-even), with `cloud_success_rate = 0` when nothing was routed to
cloud. -/
theorem stats_report_amended :
    get_stats RouterStats.init =
      { total_chunks := 0, edge_only := 0, routed_to_cloud := 0, cloud_succeeded := 0,
        cloud_failed := 0, cloud_timeout := 0, no_internet := 0,
        edge_percentage := 0, cloud_percentage := 0, cloud_success_rate := 0 } ∧
    ∀ s : RouterStats, 0 < s.total_chunks →
      (get_stats s).edge_percentage
          = round2 (((s.edge_only : Rat) / (s.total_chunks : Rat)) * 100) ∧
      (get_stats s).cloud_percentage
          = round2 (((s.routed_to_cloud : Rat) / (s.total_chunks : Rat)) * 100) ∧
      (get_stats s).cloud_success_rate
          = (if 0 < s.routed_to_cloud then
              round2 (((s.cloud_succeeded : Rat) / (s.routed_to_cloud : Rat)) * 100)
            else 0) := by
  constructor
  · rfl
  · intro s hs
    have hne : ¬ s.total_chunks = 0 := Nat.pos_iff_ne_zero.mp hs
    unfold get_stats
    rw [if_neg hne]
    refine ⟨rfl, rfl, ?_⟩
    show round2 (if s.routed_to_cloud > 0 then
        (s.cloud_succeeded : Rat) / (s.routed_to_cloud : Rat) * 100 else 0) = _
    by_cases hr : 0 < s.routed_to_cloud
    · rw [if_pos hr, if_pos hr]
    · rw [if_neg hr, if_neg hr]
      norm_num [round2, roundHalfEven]

/-- Witness for the amended C9 at the reachable three-chunk state. -/
theorem stats_report_amended_w :
    (get_stats statsAfterThree).edge_percentage
        = round2 (((statsAfterThree.edge_only : Rat) / (statsAfterThree.total_chunks : Rat)) * 100) ∧
    (get_stats statsAfterThree).cloud_percentage
        = round2 (((statsAfterThree.routed_to_cloud : Rat) / (statsAfterThree.total_chunks : Rat)) * 100) := by
  have h := stats_report_amended.2 statsAfterThree
    (by norm_num [statsAfterThree, decide_routing, RouterStats.init])
  exact ⟨h.1, h.2.1⟩

end LiveSpeak
